import Mathlib

/-!
Verification of the csv_tx_resolver transaction ledger (`src/main.rs`).

The Rust program replays transaction records against per-client accounts.
We shallowly embed the core: the `Account` operations (`deposit`, `withdraw`,
`dispute`, `resolve`, `chargeback`), the transaction store (`Transaction.save`,
`create_account_if_not_exists`) and the per-record dispatch loop of
`read_from_file` (`processRecord` / `processAll`).  Monetary amounts are
modelled as exact rationals; client and tx identifiers as naturals; the
hash maps as functions to `Option`.
-/

namespace CsvTx

/-- A transaction record, as in `struct Transaction` of `src/main.rs`:
`r_type` is the raw `type` string, `client` the u16 client id, `tx` the
u32 transaction id, `amount` the (already truncated) amount. -/
structure Transaction where
  r_type : String
  client : Nat
  tx : Nat
  amount : ℚ
deriving DecidableEq, Repr

/-- An account, as in `struct Account` of `src/main.rs`. -/
structure Account where
  client : Nat
  available : ℚ
  held : ℚ
  total : ℚ
  locked : Bool
deriving DecidableEq, Repr

/-- `AccountMap = HashMap<u16, Account>` modelled as a function. -/
def AccountMap : Type := Nat → Option Account

/-- `TransactionMap = HashMap<u32, Transaction>` modelled as a function. -/
def TransactionMap : Type := Nat → Option Transaction

/-- The empty account map (`HashMap::new()`). -/
def emptyAccounts : AccountMap := fun _ => none

/-- The empty transaction map (`HashMap::new()`). -/
def emptyTransactions : TransactionMap := fun _ => none

/-- The fresh all-zero account inserted by `create_account_if_not_exists`. -/
def freshAccount (client : Nat) : Account :=
  { client := client, available := 0, held := 0, total := 0, locked := false }

/-- `Account::dispute`: `held += amount; available = total - held` (the new
`held`), unconditionally. -/
def Account.dispute (a : Account) (amount : ℚ) : Account :=
  { a with held := a.held + amount, available := a.total - (a.held + amount) }

/-- `Account::resolve`: if `held > 0` then `held -= amount;
available = total - held` (the new `held`); else no-op. -/
def Account.resolve (a : Account) (amount : ℚ) : Account :=
  if 0 < a.held then
    { a with held := a.held - amount, available := a.total - (a.held - amount) }
  else a

/-- `Account::chargeback`: if `held > 0` then `held -= amount;
total -= amount; locked = true`; else no-op. -/
def Account.chargeback (a : Account) (amount : ℚ) : Account :=
  if 0 < a.held then
    { a with held := a.held - amount, total := a.total - amount, locked := true }
  else a

/-- `Account::deposit`: if not locked then `total += amount;
available += amount`; else no-op. -/
def Account.deposit (a : Account) (deposit_amount : ℚ) : Account :=
  if a.locked = false then
    { a with total := a.total + deposit_amount,
             available := a.available + deposit_amount }
  else a

/-- `Account::withdraw`: if `withdraw_amount < available && !locked` then
`total -= withdraw_amount; available -= withdraw_amount`; else no-op. -/
def Account.withdraw (a : Account) (withdraw_amount : ℚ) : Account :=
  if withdraw_amount < a.available ∧ a.locked = false then
    { a with total := a.total - withdraw_amount,
             available := a.available - withdraw_amount }
  else a

/-- `Transaction::save`: store the record under its `tx` id iff its type is
`"withdrawal"` or `"deposit"`; `HashMap::insert` overwrites any entry. -/
def Transaction.save (t : Transaction) (transactions : TransactionMap) :
    TransactionMap :=
  if t.r_type = "withdrawal" ∨ t.r_type = "deposit" then
    fun i => if i = t.tx then some t else transactions i
  else transactions

/-- `Transaction::create_account_if_not_exists`: insert a fresh zero account
for the record's client if none exists. -/
def Transaction.create_account_if_not_exists (t : Transaction)
    (accounts : AccountMap) : AccountMap :=
  match accounts t.client with
  | some _ => accounts
  | none => fun c => if c = t.client then some (freshAccount t.client) else accounts c

/-- `accounts.entry(id).and_modify(f)`: apply `f` to the entry at `client`
when present. -/
def modifyAt (accounts : AccountMap) (client : Nat) (f : Account → Account) :
    AccountMap :=
  fun c => if c = client then (accounts c).map f else accounts c

/-- One iteration of the record loop in `read_from_file`: save the record,
create the account if missing, then dispatch on the `type` string.
Dispute/resolve/chargeback first look up the referenced stored transaction
and drop the record when the lookup fails. -/
def processRecord (s : AccountMap × TransactionMap) (record : Transaction) :
    AccountMap × TransactionMap :=
  let transactions := record.save s.2
  let accounts := record.create_account_if_not_exists s.1
  if record.r_type = "deposit" then
    (modifyAt accounts record.client (fun a => a.deposit record.amount), transactions)
  else if record.r_type = "withdrawal" then
    (modifyAt accounts record.client (fun a => a.withdraw record.amount), transactions)
  else if record.r_type = "dispute" then
    match transactions record.tx with
    | some referenced_tx =>
        (modifyAt accounts record.client (fun a => a.dispute referenced_tx.amount),
         transactions)
    | none => (accounts, transactions)
  else if record.r_type = "resolve" then
    match transactions record.tx with
    | some referenced_tx =>
        (modifyAt accounts record.client (fun a => a.resolve referenced_tx.amount),
         transactions)
    | none => (accounts, transactions)
  else if record.r_type = "chargeback" then
    match transactions record.tx with
    | some referenced_tx =>
        (modifyAt accounts record.client (fun a => a.chargeback referenced_tx.amount),
         transactions)
    | none => (accounts, transactions)
  else (accounts, transactions)

/-- The whole record loop of `read_from_file`, starting from the two empty
maps by default when applied to `(emptyAccounts, emptyTransactions)`. -/
def processAll (s : AccountMap × TransactionMap) (records : List Transaction) :
    AccountMap × TransactionMap :=
  records.foldl processRecord s

/-- The balance-sheet invariant: `total == available + held`. -/
def balanced (a : Account) : Prop := a.total = a.available + a.held

instance (a : Account) : Decidable (balanced a) := by
  unfold balanced; infer_instance

/-! ### Basic lemmas about the store operations -/

lemma save_skip (t : Transaction) (m : TransactionMap)
    (h : ¬(t.r_type = "withdrawal" ∨ t.r_type = "deposit")) : t.save m = m := by
  simp only [Transaction.save, if_neg h]

lemma save_store (t : Transaction) (m : TransactionMap)
    (h : t.r_type = "withdrawal" ∨ t.r_type = "deposit") :
    t.save m = fun i => if i = t.tx then some t else m i := by
  simp only [Transaction.save, if_pos h]

lemma create_entry_some (t : Transaction) (m : AccountMap) {c : Nat} {b : Account}
    (h : m c = some b) : t.create_account_if_not_exists m c = some b := by
  unfold Transaction.create_account_if_not_exists
  cases hm : m t.client with
  | some a => exact h
  | none =>
      by_cases hc : c = t.client
      · rw [hc, hm] at h; exact absurd h (by simp)
      · simp only [if_neg hc]; exact h

lemma create_entry (t : Transaction) (m : AccountMap) {c : Nat} {b : Account}
    (h : t.create_account_if_not_exists m c = some b) :
    m c = some b ∨ b = freshAccount t.client := by
  unfold Transaction.create_account_if_not_exists at h
  cases hm : m t.client with
  | some a => simp only [hm] at h; exact Or.inl h
  | none =>
      simp only [hm] at h
      by_cases hc : c = t.client
      · rw [if_pos hc] at h
        exact Or.inr (Option.some_injective _ h).symm
      · rw [if_neg hc] at h; exact Or.inl h

lemma modifyAt_entry (m : AccountMap) (cl : Nat) (f : Account → Account)
    {c : Nat} {b : Account} (h : modifyAt m cl f c = some b) :
    (∃ a, m c = some a ∧ b = f a) ∨ m c = some b := by
  unfold modifyAt at h
  by_cases hc : c = cl
  · rw [if_pos hc] at h
    cases ha : m c with
    | none => rw [ha] at h; exact absurd h (by simp)
    | some a =>
        rw [ha] at h
        exact Or.inl ⟨a, rfl, (Option.some_injective _ h).symm⟩
  · rw [if_neg hc] at h; exact Or.inr h

lemma modifyAt_self (m : AccountMap) (cl : Nat) (f : Account → Account)
    {b : Account} (h : m cl = some b) : modifyAt m cl f cl = some (f b) := by
  simp [modifyAt, h]

/-! ### Dispatch lemmas: how `processRecord` behaves per record type -/

lemma processRecord_deposit (s : AccountMap × TransactionMap) (rec : Transaction)
    (h : rec.r_type = "deposit") :
    processRecord s rec =
      (modifyAt (rec.create_account_if_not_exists s.1) rec.client
        (fun a => a.deposit rec.amount), rec.save s.2) := by
  simp only [processRecord, h, if_true]

lemma processRecord_withdrawal (s : AccountMap × TransactionMap) (rec : Transaction)
    (h : rec.r_type = "withdrawal") :
    processRecord s rec =
      (modifyAt (rec.create_account_if_not_exists s.1) rec.client
        (fun a => a.withdraw rec.amount), rec.save s.2) := by
  simp only [processRecord, h,
    show ("withdrawal" = "deposit") = False from by decide, if_false, if_true]

lemma processRecord_dispute_found (s : AccountMap × TransactionMap)
    (rec t : Transaction) (h : rec.r_type = "dispute") (ht : s.2 rec.tx = some t) :
    processRecord s rec =
      (modifyAt (rec.create_account_if_not_exists s.1) rec.client
        (fun a => a.dispute t.amount), s.2) := by
  have hs : rec.save s.2 = s.2 := save_skip rec s.2 (by rw [h]; decide)
  simp only [processRecord, h,
    show ("dispute" = "deposit") = False from by decide,
    show ("dispute" = "withdrawal") = False from by decide, if_false, if_true,
    hs, ht]

lemma processRecord_dispute_none (s : AccountMap × TransactionMap)
    (rec : Transaction) (h : rec.r_type = "dispute") (ht : s.2 rec.tx = none) :
    processRecord s rec = (rec.create_account_if_not_exists s.1, s.2) := by
  have hs : rec.save s.2 = s.2 := save_skip rec s.2 (by rw [h]; decide)
  simp only [processRecord, h,
    show ("dispute" = "deposit") = False from by decide,
    show ("dispute" = "withdrawal") = False from by decide, if_false, if_true,
    hs, ht]

lemma processRecord_resolve_found (s : AccountMap × TransactionMap)
    (rec t : Transaction) (h : rec.r_type = "resolve") (ht : s.2 rec.tx = some t) :
    processRecord s rec =
      (modifyAt (rec.create_account_if_not_exists s.1) rec.client
        (fun a => a.resolve t.amount), s.2) := by
  have hs : rec.save s.2 = s.2 := save_skip rec s.2 (by rw [h]; decide)
  simp only [processRecord, h,
    show ("resolve" = "deposit") = False from by decide,
    show ("resolve" = "withdrawal") = False from by decide,
    show ("resolve" = "dispute") = False from by decide, if_false, if_true,
    hs, ht]

lemma processRecord_resolve_none (s : AccountMap × TransactionMap)
    (rec : Transaction) (h : rec.r_type = "resolve") (ht : s.2 rec.tx = none) :
    processRecord s rec = (rec.create_account_if_not_exists s.1, s.2) := by
  have hs : rec.save s.2 = s.2 := save_skip rec s.2 (by rw [h]; decide)
  simp only [processRecord, h,
    show ("resolve" = "deposit") = False from by decide,
    show ("resolve" = "withdrawal") = False from by decide,
    show ("resolve" = "dispute") = False from by decide, if_false, if_true,
    hs, ht]

lemma processRecord_chargeback_found (s : AccountMap × TransactionMap)
    (rec t : Transaction) (h : rec.r_type = "chargeback") (ht : s.2 rec.tx = some t) :
    processRecord s rec =
      (modifyAt (rec.create_account_if_not_exists s.1) rec.client
        (fun a => a.chargeback t.amount), s.2) := by
  have hs : rec.save s.2 = s.2 := save_skip rec s.2 (by rw [h]; decide)
  simp only [processRecord, h,
    show ("chargeback" = "deposit") = False from by decide,
    show ("chargeback" = "withdrawal") = False from by decide,
    show ("chargeback" = "dispute") = False from by decide,
    show ("chargeback" = "resolve") = False from by decide, if_false, if_true,
    hs, ht]

lemma processRecord_chargeback_none (s : AccountMap × TransactionMap)
    (rec : Transaction) (h : rec.r_type = "chargeback") (ht : s.2 rec.tx = none) :
    processRecord s rec = (rec.create_account_if_not_exists s.1, s.2) := by
  have hs : rec.save s.2 = s.2 := save_skip rec s.2 (by rw [h]; decide)
  simp only [processRecord, h,
    show ("chargeback" = "deposit") = False from by decide,
    show ("chargeback" = "withdrawal") = False from by decide,
    show ("chargeback" = "dispute") = False from by decide,
    show ("chargeback" = "resolve") = False from by decide, if_false, if_true,
    hs, ht]

lemma processRecord_other (s : AccountMap × TransactionMap) (rec : Transaction)
    (h1 : ¬rec.r_type = "deposit") (h2 : ¬rec.r_type = "withdrawal")
    (h3 : ¬rec.r_type = "dispute") (h4 : ¬rec.r_type = "resolve")
    (h5 : ¬rec.r_type = "chargeback") :
    processRecord s rec = (rec.create_account_if_not_exists s.1, rec.save s.2) := by
  simp only [processRecord, if_neg h1, if_neg h2, if_neg h3, if_neg h4, if_neg h5]

/-! ### Generic preservation of account predicates by the processing loop -/

lemma entry_of_create (P : Account → Prop) (hfresh : ∀ cl, P (freshAccount cl))
    (t : Transaction) (m : AccountMap) (hm : ∀ c b, m c = some b → P b) :
    ∀ c b, t.create_account_if_not_exists m c = some b → P b := by
  intro c b hb
  rcases create_entry t m hb with h1 | rfl
  · exact hm _ _ h1
  · exact hfresh _

lemma entry_of_modify_create (P : Account → Prop) (hfresh : ∀ cl, P (freshAccount cl))
    (f : Account → Account) (hf : ∀ a, P a → P (f a))
    (t : Transaction) (m : AccountMap) (cl : Nat)
    (hm : ∀ c b, m c = some b → P b) :
    ∀ c b, modifyAt (t.create_account_if_not_exists m) cl f c = some b → P b := by
  intro c b hb
  rcases modifyAt_entry _ _ _ hb with ⟨a, ha, rfl⟩ | hb'
  · exact hf _ (entry_of_create P hfresh t m hm _ _ ha)
  · exact entry_of_create P hfresh t m hm _ _ hb'

lemma processRecord_forall (P : Account → Prop)
    (hfresh : ∀ cl, P (freshAccount cl))
    (hops : ∀ (a : Account) (x : ℚ), P a →
      P (a.deposit x) ∧ P (a.withdraw x) ∧ P (a.dispute x) ∧
      P (a.resolve x) ∧ P (a.chargeback x))
    (s : AccountMap × TransactionMap) (rec : Transaction)
    (h : ∀ c b, s.1 c = some b → P b) :
    ∀ c b, (processRecord s rec).1 c = some b → P b := by
  by_cases h1 : rec.r_type = "deposit"
  · rw [processRecord_deposit s rec h1]
    exact entry_of_modify_create P hfresh _ (fun a ha => (hops a rec.amount ha).1) rec s.1 _ h
  by_cases h2 : rec.r_type = "withdrawal"
  · rw [processRecord_withdrawal s rec h2]
    exact entry_of_modify_create P hfresh _ (fun a ha => (hops a rec.amount ha).2.1) rec s.1 _ h
  by_cases h3 : rec.r_type = "dispute"
  · cases ht : s.2 rec.tx with
    | some t =>
        rw [processRecord_dispute_found s rec t h3 ht]
        exact entry_of_modify_create P hfresh _ (fun a ha => (hops a t.amount ha).2.2.1) rec s.1 _ h
    | none =>
        rw [processRecord_dispute_none s rec h3 ht]
        exact entry_of_create P hfresh rec s.1 h
  by_cases h4 : rec.r_type = "resolve"
  · cases ht : s.2 rec.tx with
    | some t =>
        rw [processRecord_resolve_found s rec t h4 ht]
        exact entry_of_modify_create P hfresh _ (fun a ha => (hops a t.amount ha).2.2.2.1) rec s.1 _ h
    | none =>
        rw [processRecord_resolve_none s rec h4 ht]
        exact entry_of_create P hfresh rec s.1 h
  by_cases h5 : rec.r_type = "chargeback"
  · cases ht : s.2 rec.tx with
    | some t =>
        rw [processRecord_chargeback_found s rec t h5 ht]
        exact entry_of_modify_create P hfresh _ (fun a ha => (hops a t.amount ha).2.2.2.2) rec s.1 _ h
    | none =>
        rw [processRecord_chargeback_none s rec h5 ht]
        exact entry_of_create P hfresh rec s.1 h
  rw [processRecord_other s rec h1 h2 h3 h4 h5]
  exact entry_of_create P hfresh rec s.1 h

lemma processAll_forall (P : Account → Prop)
    (hfresh : ∀ cl, P (freshAccount cl))
    (hops : ∀ (a : Account) (x : ℚ), P a →
      P (a.deposit x) ∧ P (a.withdraw x) ∧ P (a.dispute x) ∧
      P (a.resolve x) ∧ P (a.chargeback x))
    (records : List Transaction) :
    ∀ s, (∀ c b, s.1 c = some b → P b) →
      ∀ c b, (processAll s records).1 c = some b → P b := by
  induction records with
  | nil => exact fun s h => h
  | cons r rs ih =>
      intro s h
      exact ih (processRecord s r) (processRecord_forall P hfresh hops s r h)

/-! ### The balance-sheet invariant is preserved -/

lemma balanced_fresh (c : Nat) : balanced (freshAccount c) := by
  simp [balanced, freshAccount]

lemma balanced_ops (a : Account) (x : ℚ) (h : balanced a) :
    balanced (a.deposit x) ∧ balanced (a.withdraw x) ∧ balanced (a.dispute x) ∧
    balanced (a.resolve x) ∧ balanced (a.chargeback x) := by
  unfold balanced at *
  unfold Account.deposit Account.withdraw Account.dispute Account.resolve Account.chargeback
  refine ⟨?_, ?_, ?_, ?_, ?_⟩
  · split <;> (try dsimp only) <;> linarith
  · split <;> (try dsimp only) <;> linarith
  · dsimp only; linarith
  · split <;> (try dsimp only) <;> linarith
  · split <;> (try dsimp only) <;> linarith

/-- C1: for every account and every input sequence of transactions, after each
record is applied the account satisfies `total == available + held`: the
all-zero fresh account satisfies it, each of deposit, withdraw, dispute,
resolve and chargeback preserves it, and every account produced by running the
whole loop on any record list satisfies it. -/
theorem C1_total_eq_available_add_held :
    (∀ c, balanced (freshAccount c)) ∧
    (∀ (a : Account) (x : ℚ), balanced a →
      balanced (a.deposit x) ∧ balanced (a.withdraw x) ∧ balanced (a.dispute x) ∧
      balanced (a.resolve x) ∧ balanced (a.chargeback x)) ∧
    (∀ (records : List Transaction) (c : Nat) (a : Account),
      (processAll (emptyAccounts, emptyTransactions) records).1 c = some a →
      balanced a) := by
  refine ⟨balanced_fresh, balanced_ops, ?_⟩
  intro records c a ha
  exact processAll_forall balanced balanced_fresh balanced_ops records
    (emptyAccounts, emptyTransactions)
    (fun c b hb => absurd hb (by simp [emptyAccounts])) c a ha

/-- Witness for C1 at concrete inputs. -/
theorem C1_total_eq_available_add_held_witness :
    balanced ((freshAccount 1).deposit 5) ∧ balanced (freshAccount 2) :=
  ⟨(C1_total_eq_available_add_held.2.1 (freshAccount 1) 5
      (C1_total_eq_available_add_held.1 1)).1,
   C1_total_eq_available_add_held.1 2⟩

/-! ### Single-entry preservation -/

lemma modify_create_entry (P : Account → Prop) (f : Account → Account)
    (hf : ∀ a, P a → P (f a)) (t : Transaction) (m : AccountMap) (cl c : Nat)
    (b : Account) (hb : m c = some b) (hP : P b) :
    ∃ b', modifyAt (t.create_account_if_not_exists m) cl f c = some b' ∧ P b' := by
  have hb' := create_entry_some t m hb
  by_cases hc : c = cl
  · subst hc; exact ⟨f b, modifyAt_self _ _ _ hb', hf b hP⟩
  · refine ⟨b, ?_, hP⟩
    unfold modifyAt; rw [if_neg hc]; exact hb'

lemma processRecord_entry (P : Account → Prop)
    (hops : ∀ (a : Account) (x : ℚ), P a →
      P (a.deposit x) ∧ P (a.withdraw x) ∧ P (a.dispute x) ∧
      P (a.resolve x) ∧ P (a.chargeback x))
    (s : AccountMap × TransactionMap) (rec : Transaction) (c : Nat) (b : Account)
    (hb : s.1 c = some b) (hP : P b) :
    ∃ b', (processRecord s rec).1 c = some b' ∧ P b' := by
  by_cases h1 : rec.r_type = "deposit"
  · rw [processRecord_deposit s rec h1]
    exact modify_create_entry P _ (fun a ha => (hops a rec.amount ha).1) rec s.1 _ c b hb hP
  by_cases h2 : rec.r_type = "withdrawal"
  · rw [processRecord_withdrawal s rec h2]
    exact modify_create_entry P _ (fun a ha => (hops a rec.amount ha).2.1) rec s.1 _ c b hb hP
  by_cases h3 : rec.r_type = "dispute"
  · cases ht : s.2 rec.tx with
    | some t =>
        rw [processRecord_dispute_found s rec t h3 ht]
        exact modify_create_entry P _ (fun a ha => (hops a t.amount ha).2.2.1) rec s.1 _ c b hb hP
    | none =>
        rw [processRecord_dispute_none s rec h3 ht]
        exact ⟨b, create_entry_some rec s.1 hb, hP⟩
  by_cases h4 : rec.r_type = "resolve"
  · cases ht : s.2 rec.tx with
    | some t =>
        rw [processRecord_resolve_found s rec t h4 ht]
        exact modify_create_entry P _ (fun a ha => (hops a t.amount ha).2.2.2.1) rec s.1 _ c b hb hP
    | none =>
        rw [processRecord_resolve_none s rec h4 ht]
        exact ⟨b, create_entry_some rec s.1 hb, hP⟩
  by_cases h5 : rec.r_type = "chargeback"
  · cases ht : s.2 rec.tx with
    | some t =>
        rw [processRecord_chargeback_found s rec t h5 ht]
        exact modify_create_entry P _ (fun a ha => (hops a t.amount ha).2.2.2.2) rec s.1 _ c b hb hP
    | none =>
        rw [processRecord_chargeback_none s rec h5 ht]
        exact ⟨b, create_entry_some rec s.1 hb, hP⟩
  rw [processRecord_other s rec h1 h2 h3 h4 h5]
  exact ⟨b, create_entry_some rec s.1 hb, hP⟩

lemma processAll_entry (P : Account → Prop)
    (hops : ∀ (a : Account) (x : ℚ), P a →
      P (a.deposit x) ∧ P (a.withdraw x) ∧ P (a.dispute x) ∧
      P (a.resolve x) ∧ P (a.chargeback x))
    (records : List Transaction) :
    ∀ (s : AccountMap × TransactionMap) (c : Nat) (b : Account),
      s.1 c = some b → P b →
      ∃ b', (processAll s records).1 c = some b' ∧ P b' := by
  induction records with
  | nil => exact fun s c b hb hP => ⟨b, hb, hP⟩
  | cons r rs ih =>
      intro s c b hb hP
      obtain ⟨b', hb', hP'⟩ := processRecord_entry P hops s r c b hb hP
      exact ih (processRecord s r) c b' hb' hP'

lemma locked_mono (a : Account) (x : ℚ) (h : a.locked = true) :
    (a.deposit x).locked = true ∧ (a.withdraw x).locked = true ∧
    (a.dispute x).locked = true ∧ (a.resolve x).locked = true ∧
    (a.chargeback x).locked = true := by
  unfold Account.deposit Account.withdraw Account.dispute Account.resolve
    Account.chargeback
  refine ⟨?_, ?_, ?_, ?_, ?_⟩ <;> (try split) <;> (try dsimp only) <;> simp [h]

/-- C2: withdrawal mutates the account (`total -= amount; available -= amount`)
exactly when the account is not locked and the amount is strictly below
`available`; in every other case (locked, or `available ≤ amount`, which
includes equality) the account is unchanged. -/
theorem C2_withdraw_strict_guard (a : Account) (x : ℚ) :
    (a.locked = false ∧ x < a.available →
      a.withdraw x = { a with total := a.total - x, available := a.available - x }) ∧
    (a.locked = true ∨ a.available ≤ x → a.withdraw x = a) := by
  constructor
  · rintro ⟨h1, h2⟩
    unfold Account.withdraw
    rw [if_pos ⟨h2, h1⟩]
  · intro h
    unfold Account.withdraw
    rw [if_neg]
    rintro ⟨hlt, hlock⟩
    rcases h with h | h
    · rw [h] at hlock; exact Bool.true_eq_false ▸ hlock ▸ rfl
    · exact absurd hlt (not_lt.mpr h)

/-- Witness for C2: a permitted withdrawal, and a rejected withdrawal of the
exact available balance. -/
theorem C2_withdraw_strict_guard_witness :
    (⟨1, 10, 0, 10, false⟩ : Account).withdraw 3 =
      { (⟨1, 10, 0, 10, false⟩ : Account) with
          total := (10 : ℚ) - 3, available := (10 : ℚ) - 3 } ∧
    (⟨1, 10, 0, 10, false⟩ : Account).withdraw 10 = ⟨1, 10, 0, 10, false⟩ :=
  ⟨(C2_withdraw_strict_guard _ 3).1 ⟨rfl, by decide⟩,
   (C2_withdraw_strict_guard _ 10).2 (Or.inr (by decide))⟩

/-- C3: chargeback with `held > 0` performs `held -= amount; total -= amount;
locked = true` and leaves `available` unchanged; with `held ≤ 0`, or when the
referenced tx id is not stored, the account is completely unchanged. -/
theorem C3_chargeback_semantics :
    (∀ (a : Account) (x : ℚ),
      (0 < a.held →
        a.chargeback x =
          { a with held := a.held - x, total := a.total - x, locked := true }) ∧
      (a.held ≤ 0 → a.chargeback x = a) ∧
      (a.chargeback x).available = a.available) ∧
    (∀ (s : AccountMap × TransactionMap) (rec : Transaction) (b : Account),
      rec.r_type = "chargeback" → s.2 rec.tx = none → s.1 rec.client = some b →
      (processRecord s rec).1 rec.client = some b) := by
  constructor
  · intro a x
    refine ⟨?_, ?_, ?_⟩
    · intro h; unfold Account.chargeback; rw [if_pos h]
    · intro h; unfold Account.chargeback; rw [if_neg (not_lt.mpr h)]
    · unfold Account.chargeback; split <;> rfl
  · intro s rec b h ht hb
    rw [processRecord_chargeback_none s rec h ht]
    exact create_entry_some rec s.1 hb

/-- Witness for C3: a chargeback that fires, a no-op chargeback with zero held,
and a chargeback record whose tx id is unknown. -/
theorem C3_chargeback_semantics_witness :
    (⟨1, 7, 3, 10, false⟩ : Account).chargeback 2 =
      { (⟨1, 7, 3, 10, false⟩ : Account) with
          held := (3 : ℚ) - 2, total := (10 : ℚ) - 2, locked := true } ∧
    (⟨1, 5, 0, 5, false⟩ : Account).chargeback 2 = ⟨1, 5, 0, 5, false⟩ ∧
    (processRecord
        (fun c => if c = 1 then some ⟨1, 5, 0, 5, false⟩ else none,
         emptyTransactions)
        ⟨"chargeback", 1, 99, 0⟩).1 1 = some ⟨1, 5, 0, 5, false⟩ :=
  ⟨(C3_chargeback_semantics.1 ⟨1, 7, 3, 10, false⟩ 2).1 (by decide),
   (C3_chargeback_semantics.1 ⟨1, 5, 0, 5, false⟩ 2).2.1 (by decide),
   C3_chargeback_semantics.2
     (fun c => if c = 1 then some ⟨1, 5, 0, 5, false⟩ else none, emptyTransactions)
     ⟨"chargeback", 1, 99, 0⟩ ⟨1, 5, 0, 5, false⟩ rfl rfl rfl⟩

/-- C5: `locked` is terminal: deposits and withdrawals on a locked account are
exact no-ops, every operation keeps `locked = true`, dispute/resolve/chargeback
are not gated by the lock and still mutate the account, and along any
processing run a locked account stays locked. -/
theorem C5_locked_terminal :
    (∀ (a : Account) (x : ℚ), a.locked = true →
      a.deposit x = a ∧ a.withdraw x = a ∧
      (a.dispute x).locked = true ∧ (a.resolve x).locked = true ∧
      (a.chargeback x).locked = true ∧
      a.dispute x =
        { a with held := a.held + x, available := a.total - (a.held + x) } ∧
      (0 < a.held →
        a.resolve x =
          { a with held := a.held - x, available := a.total - (a.held - x) } ∧
        a.chargeback x =
          { a with held := a.held - x, total := a.total - x, locked := true })) ∧
    (∀ (records : List Transaction) (s : AccountMap × TransactionMap)
        (c : Nat) (b : Account),
      s.1 c = some b → b.locked = true →
      ∃ b', (processAll s records).1 c = some b' ∧ b'.locked = true) := by
  constructor
  · intro a x h
    refine ⟨?_, ?_, ?_, ?_, ?_, rfl, ?_⟩
    · unfold Account.deposit; rw [if_neg (by simp [h])]
    · unfold Account.withdraw
      rw [if_neg]; rintro ⟨_, hl⟩; simp [h] at hl
    · exact h
    · unfold Account.resolve; split <;> exact h
    · unfold Account.chargeback; split
      · rfl
      · exact h
    · intro hheld
      constructor
      · unfold Account.resolve; rw [if_pos hheld]
      · unfold Account.chargeback; rw [if_pos hheld]
  · intro records s c b hb hl
    exact processAll_entry (fun b => b.locked = true) locked_mono records s c b hb hl

/-- Witness for C5: deposits and withdrawals on a concrete locked account are
no-ops. -/
theorem C5_locked_terminal_witness :
    (⟨1, 7, 1, 8, true⟩ : Account).deposit 1 = ⟨1, 7, 1, 8, true⟩ ∧
    (⟨1, 7, 1, 8, true⟩ : Account).withdraw 1 = ⟨1, 7, 1, 8, true⟩ :=
  ⟨(C5_locked_terminal.1 ⟨1, 7, 1, 8, true⟩ 1 rfl).1,
   (C5_locked_terminal.1 ⟨1, 7, 1, 8, true⟩ 1 rfl).2.1⟩

/-- C4, counterexample: on the fresh zero account, a deposit of 5 followed by a
withdrawal of 5 does not restore `available` (the strict overdraft check
`5 < 5` rejects the withdrawal, so `available` stays at 5, not 0). -/
theorem C4_roundtrip_counterexample :
    (((freshAccount 1).deposit 5).withdraw 5).available ≠
      (freshAccount 1).available := by
  norm_num [freshAccount, Account.deposit, Account.withdraw]

/-- C4, amended: when the account is not locked and `available` is strictly
positive, a deposit of `x` followed by a withdrawal of `x` restores
`available` and `total` to their pre-deposit values. -/
theorem C4_roundtrip_amended (a : Account) (x : ℚ)
    (h1 : a.locked = false) (h2 : 0 < a.available) :
    (((a.deposit x).withdraw x).available = a.available) ∧
    (((a.deposit x).withdraw x).total = a.total) := by
  unfold Account.deposit
  rw [if_pos h1]
  unfold Account.withdraw
  rw [if_pos ⟨by dsimp only; linarith, h1⟩]
  constructor <;> dsimp only <;> ring

/-- Witness for the amended C4 on a concrete unlocked account with positive
balance. -/
theorem C4_roundtrip_amended_witness :
    ((((⟨1, 10, 0, 10, false⟩ : Account).deposit 5).withdraw 5).available =
      (⟨1, 10, 0, 10, false⟩ : Account).available) ∧
    ((((⟨1, 10, 0, 10, false⟩ : Account).deposit 5).withdraw 5).total =
      (⟨1, 10, 0, 10, false⟩ : Account).total) :=
  C4_roundtrip_amended ⟨1, 10, 0, 10, false⟩ 5 rfl (by decide)

/-- C6: dispute/resolve/chargeback records are never stored, and a dispute
record whose tx id is not in the transaction map leaves the client's account
(and the transaction map) completely unchanged. -/
theorem C6_unknown_dispute_noop :
    (∀ (rec : Transaction) (m : TransactionMap),
      rec.r_type = "dispute" ∨ rec.r_type = "resolve" ∨ rec.r_type = "chargeback" →
      rec.save m = m) ∧
    (∀ (s : AccountMap × TransactionMap) (rec : Transaction) (b : Account),
      rec.r_type = "dispute" → s.2 rec.tx = none → s.1 rec.client = some b →
      (processRecord s rec).1 rec.client = some b ∧
      (processRecord s rec).2 = s.2) := by
  constructor
  · intro rec m h
    apply save_skip
    rcases h with h | h | h <;> rw [h] <;> decide
  · intro s rec b h ht hb
    rw [processRecord_dispute_none s rec h ht]
    exact ⟨create_entry_some rec s.1 hb, rfl⟩

/-- Witness for C6: a dispute of an unknown tx id on a concrete state. -/
theorem C6_unknown_dispute_noop_witness :
    (⟨"dispute", 1, 99, 0⟩ : Transaction).save emptyTransactions =
      emptyTransactions ∧
    (processRecord
        (fun c => if c = 1 then some ⟨1, 5, 0, 5, false⟩ else none,
         emptyTransactions)
        ⟨"dispute", 1, 99, 0⟩).1 1 = some ⟨1, 5, 0, 5, false⟩ :=
  ⟨C6_unknown_dispute_noop.1 ⟨"dispute", 1, 99, 0⟩ emptyTransactions (Or.inl rfl),
   (C6_unknown_dispute_noop.2
      (fun c => if c = 1 then some ⟨1, 5, 0, 5, false⟩ else none, emptyTransactions)
      ⟨"dispute", 1, 99, 0⟩ ⟨1, 5, 0, 5, false⟩ rfl rfl rfl).1⟩

/-- C7, counterexample: a second deposit reusing tx id 1 silently overwrites
the stored transaction, so a later lookup no longer returns the original
record. -/
theorem C7_stored_tx_counterexample :
    (processAll (emptyAccounts, emptyTransactions) [⟨"deposit", 1, 1, 5⟩]).2 1 =
      some ⟨"deposit", 1, 1, 5⟩ ∧
    (processAll (emptyAccounts, emptyTransactions)
        [⟨"deposit", 1, 1, 5⟩, ⟨"deposit", 1, 1, 7⟩]).2 1 =
      some ⟨"deposit", 1, 1, 7⟩ ∧
    (⟨"deposit", 1, 1, 7⟩ : Transaction) ≠ ⟨"deposit", 1, 1, 5⟩ := by
  refine ⟨?_, ?_, by decide⟩ <;>
    norm_num [processAll, processRecord, Transaction.save,
      Transaction.create_account_if_not_exists, modifyAt, emptyAccounts,
      emptyTransactions, freshAccount, Account.deposit,
      show ("deposit" = "withdrawal") = False from by decide,
      show ("deposit" = "deposit") = True from by decide]

/-- C7, amended: only Deposit/Withdrawal records are ever stored, stored
entries are never removed, and an entry can change only by a later
Deposit/Withdrawal record reusing the same tx id (silent overwrite); the
transaction map is only ever touched through `save`. -/
theorem C7_stored_tx_amended (rec : Transaction) (m : TransactionMap)
    (i : Nat) (t : Transaction) :
    (¬(rec.r_type = "withdrawal" ∨ rec.r_type = "deposit") → rec.save m = m) ∧
    ((rec.r_type = "withdrawal" ∨ rec.r_type = "deposit") →
      (rec.save m) rec.tx = some rec) ∧
    (i ≠ rec.tx → (rec.save m) i = m i) ∧
    (m i = some t → ∃ t', (rec.save m) i = some t') ∧
    (∀ s : AccountMap × TransactionMap, (processRecord s rec).2 = rec.save s.2) := by
  refine ⟨save_skip rec m, ?_, ?_, ?_, ?_⟩
  · intro h; rw [save_store rec m h]; simp
  · intro hi
    unfold Transaction.save
    split
    · dsimp only; rw [if_neg hi]
    · rfl
  · intro hmt
    unfold Transaction.save
    split
    · dsimp only
      by_cases hi : i = rec.tx
      · exact ⟨rec, by rw [if_pos hi]⟩
      · exact ⟨t, by rw [if_neg hi]; exact hmt⟩
    · exact ⟨t, hmt⟩
  · intro s
    by_cases h1 : rec.r_type = "deposit"
    · rw [processRecord_deposit s rec h1]
    by_cases h2 : rec.r_type = "withdrawal"
    · rw [processRecord_withdrawal s rec h2]
    have hnd : ¬(rec.r_type = "withdrawal" ∨ rec.r_type = "deposit") := by
      rintro (h | h) <;> exact absurd h (by assumption)
    have hs : rec.save s.2 = s.2 := save_skip rec s.2 hnd
    by_cases h3 : rec.r_type = "dispute"
    · cases ht : s.2 rec.tx with
      | some u => rw [processRecord_dispute_found s rec u h3 ht]; exact hs.symm
      | none => rw [processRecord_dispute_none s rec h3 ht]; exact hs.symm
    by_cases h4 : rec.r_type = "resolve"
    · cases ht : s.2 rec.tx with
      | some u => rw [processRecord_resolve_found s rec u h4 ht]; exact hs.symm
      | none => rw [processRecord_resolve_none s rec h4 ht]; exact hs.symm
    by_cases h5 : rec.r_type = "chargeback"
    · cases ht : s.2 rec.tx with
      | some u => rw [processRecord_chargeback_found s rec u h5 ht]; exact hs.symm
      | none => rw [processRecord_chargeback_none s rec h5 ht]; exact hs.symm
    rw [processRecord_other s rec h1 h2 h3 h4 h5]

/-- Witness for the amended C7 on concrete records. -/
theorem C7_stored_tx_amended_witness :
    ((⟨"deposit", 1, 1, 5⟩ : Transaction).save emptyTransactions) 1 =
      some ⟨"deposit", 1, 1, 5⟩ ∧
    ((⟨"deposit", 1, 1, 5⟩ : Transaction).save emptyTransactions) 2 =
      emptyTransactions 2 :=
  ⟨(C7_stored_tx_amended ⟨"deposit", 1, 1, 5⟩ emptyTransactions 1
      ⟨"deposit", 1, 1, 5⟩).2.1 (Or.inr rfl),
   (C7_stored_tx_amended ⟨"deposit", 1, 1, 5⟩ emptyTransactions 2
      ⟨"deposit", 1, 1, 5⟩).2.2.1 (by decide)⟩

/-- C8: dispute applies `held += referenced_amount; available = total - held`
unconditionally (no precondition on `held`, repetitions add the amount again),
and a dispute record whose tx id is stored applies exactly that to the
record's client. -/
theorem C8_dispute_unconditional :
    (∀ (a : Account) (x : ℚ),
      a.dispute x =
        { a with held := a.held + x, available := a.total - (a.held + x) } ∧
      ((a.dispute x).dispute x).held = a.held + x + x) ∧
    (∀ (s : AccountMap × TransactionMap) (rec t : Transaction) (b : Account),
      rec.r_type = "dispute" → s.2 rec.tx = some t → s.1 rec.client = some b →
      (processRecord s rec).1 rec.client = some (b.dispute t.amount)) := by
  constructor
  · exact fun a x => ⟨rfl, rfl⟩
  · intro s rec t b h ht hb
    rw [processRecord_dispute_found s rec t h ht]
    exact modifyAt_self _ _ _ (create_entry_some rec s.1 hb)

/-- Witness for C8 on a concrete state with a stored deposit. -/
theorem C8_dispute_unconditional_witness :
    (⟨1, 10, 0, 10, false⟩ : Account).dispute 5 =
      { (⟨1, 10, 0, 10, false⟩ : Account) with
          held := (0 : ℚ) + 5, available := (10 : ℚ) - ((0 : ℚ) + 5) } ∧
    (processRecord
        (fun c => if c = 1 then some ⟨1, 10, 0, 10, false⟩ else none,
         fun i => if i = 7 then some ⟨"deposit", 1, 7, 4⟩ else none)
        ⟨"dispute", 1, 7, 0⟩).1 1 =
      some ((⟨1, 10, 0, 10, false⟩ : Account).dispute 4) :=
  ⟨(C8_dispute_unconditional.1 ⟨1, 10, 0, 10, false⟩ 5).1,
   C8_dispute_unconditional.2
     (fun c => if c = 1 then some ⟨1, 10, 0, 10, false⟩ else none,
      fun i => if i = 7 then some ⟨"deposit", 1, 7, 4⟩ else none)
     ⟨"dispute", 1, 7, 0⟩ ⟨"deposit", 1, 7, 4⟩ ⟨1, 10, 0, 10, false⟩ rfl rfl rfl⟩

/-- C9: the dispute, resolve and chargeback dispatches never compare the
stored transaction's client with the record's client — whichever of the three
kinds the record has, the looked-up amount is applied, via the corresponding
account operation, to the account of the client named on the record itself —
and on a concrete input a dispute by client 2 of a deposit stored for client 1
raises client 2's `held` by client 1's deposit amount. -/
theorem C9_dispute_ignores_stored_client :
    (∀ (s : AccountMap × TransactionMap) (rec t : Transaction) (b : Account),
      s.2 rec.tx = some t → s.1 rec.client = some b →
      (rec.r_type = "dispute" →
        (processRecord s rec).1 rec.client = some (b.dispute t.amount)) ∧
      (rec.r_type = "resolve" →
        (processRecord s rec).1 rec.client = some (b.resolve t.amount)) ∧
      (rec.r_type = "chargeback" →
        (processRecord s rec).1 rec.client = some (b.chargeback t.amount))) ∧
    ((processAll (emptyAccounts, emptyTransactions)
        [⟨"deposit", 1, 1, 5⟩, ⟨"dispute", 2, 1, 0⟩]).2 1 =
       some ⟨"deposit", 1, 1, 5⟩ ∧
     (processAll (emptyAccounts, emptyTransactions)
        [⟨"deposit", 1, 1, 5⟩, ⟨"dispute", 2, 1, 0⟩]).1 2 =
       some ⟨2, -5, 5, 0, false⟩) := by
  constructor
  · intro s rec t b ht hb
    refine ⟨fun h => ?_, fun h => ?_, fun h => ?_⟩
    · rw [processRecord_dispute_found s rec t h ht]
      exact modifyAt_self _ _ _ (create_entry_some rec s.1 hb)
    · rw [processRecord_resolve_found s rec t h ht]
      exact modifyAt_self _ _ _ (create_entry_some rec s.1 hb)
    · rw [processRecord_chargeback_found s rec t h ht]
      exact modifyAt_self _ _ _ (create_entry_some rec s.1 hb)
  · constructor <;>
      norm_num [processAll, processRecord, Transaction.save,
        Transaction.create_account_if_not_exists, modifyAt, emptyAccounts,
        emptyTransactions, freshAccount, Account.deposit, Account.dispute,
        show ("deposit" = "withdrawal") = False from by decide,
        show ("deposit" = "deposit") = True from by decide,
        show ("dispute" = "deposit") = False from by decide,
        show ("dispute" = "withdrawal") = False from by decide,
        show ("dispute" = "dispute") = True from by decide]

/-- Witness for C9: the general part applied, for each of the dispute, resolve
and chargeback kinds, with a stored transaction whose client (1) differs from
the referencing record's client (2). -/
theorem C9_dispute_ignores_stored_client_witness :
    (processRecord
        (fun c => if c = 2 then some ⟨2, 0, 0, 0, false⟩ else none,
         fun i => if i = 7 then some ⟨"deposit", 1, 7, 4⟩ else none)
        ⟨"dispute", 2, 7, 0⟩).1 2 =
      some ((⟨2, 0, 0, 0, false⟩ : Account).dispute 4) ∧
    (processRecord
        (fun c => if c = 2 then some ⟨2, 0, 3, 3, false⟩ else none,
         fun i => if i = 7 then some ⟨"deposit", 1, 7, 4⟩ else none)
        ⟨"resolve", 2, 7, 0⟩).1 2 =
      some ((⟨2, 0, 3, 3, false⟩ : Account).resolve 4) ∧
    (processRecord
        (fun c => if c = 2 then some ⟨2, 0, 3, 3, false⟩ else none,
         fun i => if i = 7 then some ⟨"deposit", 1, 7, 4⟩ else none)
        ⟨"chargeback", 2, 7, 0⟩).1 2 =
      some ((⟨2, 0, 3, 3, false⟩ : Account).chargeback 4) :=
  ⟨(C9_dispute_ignores_stored_client.1
      (fun c => if c = 2 then some ⟨2, 0, 0, 0, false⟩ else none,
       fun i => if i = 7 then some ⟨"deposit", 1, 7, 4⟩ else none)
      ⟨"dispute", 2, 7, 0⟩ ⟨"deposit", 1, 7, 4⟩ ⟨2, 0, 0, 0, false⟩ rfl rfl).1 rfl,
   (C9_dispute_ignores_stored_client.1
      (fun c => if c = 2 then some ⟨2, 0, 3, 3, false⟩ else none,
       fun i => if i = 7 then some ⟨"deposit", 1, 7, 4⟩ else none)
      ⟨"resolve", 2, 7, 0⟩ ⟨"deposit", 1, 7, 4⟩ ⟨2, 0, 3, 3, false⟩ rfl rfl).2.1 rfl,
   (C9_dispute_ignores_stored_client.1
      (fun c => if c = 2 then some ⟨2, 0, 3, 3, false⟩ else none,
       fun i => if i = 7 then some ⟨"deposit", 1, 7, 4⟩ else none)
      ⟨"chargeback", 2, 7, 0⟩ ⟨"deposit", 1, 7, 4⟩ ⟨2, 0, 3, 3, false⟩ rfl rfl).2.2 rfl⟩

/-- C10: resolve and chargeback gate only on `held > 0` and subtract the full
referenced amount without bounding it by `held`; on a concrete input sequence
the account ends with `held < 0` and `available > total`. -/
theorem C10_resolve_chargeback_unbounded :
    (∀ (a : Account) (x : ℚ), 0 < a.held →
      a.resolve x =
        { a with held := a.held - x, available := a.total - (a.held - x) } ∧
      a.chargeback x =
        { a with held := a.held - x, total := a.total - x, locked := true }) ∧
    (∃ b : Account,
      (processAll (emptyAccounts, emptyTransactions)
          [⟨"deposit", 1, 1, 10⟩, ⟨"deposit", 1, 2, 3⟩, ⟨"dispute", 1, 2, 0⟩,
           ⟨"resolve", 1, 1, 0⟩]).1 1 = some b ∧
      b.held < 0 ∧ b.total < b.available) := by
  constructor
  · intro a x h
    exact ⟨by unfold Account.resolve; rw [if_pos h],
           by unfold Account.chargeback; rw [if_pos h]⟩
  · refine ⟨⟨1, 20, -7, 13, false⟩, ?_, by decide, by decide⟩
    norm_num [processAll, processRecord, Transaction.save,
      Transaction.create_account_if_not_exists, modifyAt, emptyAccounts,
      emptyTransactions, freshAccount, Account.deposit, Account.dispute,
      Account.resolve,
      show ("deposit" = "withdrawal") = False from by decide,
      show ("deposit" = "deposit") = True from by decide,
      show ("dispute" = "deposit") = False from by decide,
      show ("dispute" = "withdrawal") = False from by decide,
      show ("dispute" = "dispute") = True from by decide,
      show ("resolve" = "deposit") = False from by decide,
      show ("resolve" = "withdrawal") = False from by decide,
      show ("resolve" = "dispute") = False from by decide,
      show ("resolve" = "resolve") = True from by decide]

/-- Witness for C10: resolving 10 with only 3 held on a concrete account. -/
theorem C10_resolve_chargeback_unbounded_witness :
    (⟨1, 10, 3, 13, false⟩ : Account).resolve 10 =
      { (⟨1, 10, 3, 13, false⟩ : Account) with
          held := (3 : ℚ) - 10, available := (13 : ℚ) - ((3 : ℚ) - 10) } ∧
    (⟨1, 10, 3, 13, false⟩ : Account).chargeback 10 =
      { (⟨1, 10, 3, 13, false⟩ : Account) with
          held := (3 : ℚ) - 10, total := (13 : ℚ) - 10, locked := true } :=
  C10_resolve_chargeback_unbounded.1 ⟨1, 10, 3, 13, false⟩ 10 (by decide)

end CsvTx
